import Mathlib

/-!
Verification development for the data-preparation stage of the
BSc_stats_analysis pipeline (src/data_preparation.py), with the
food-group catalogs of the downstream scripts
(src/advanced_analysis.py, src/analysis_dietary_patterns.py).

Cells of the in-memory table are modelled by `Cell` (a string, a number,
or missing).  Numbers are modelled by rationals; the numeric constants
involved (18.5, 25, 30, the ordinal codes 1..6) are exactly representable
as binary floats, so the rational model is faithful on every comparison
the code performs.
-/

/-- A raw cell of the loaded table: textual, numeric, or missing (NaN). -/
inductive Cell where
  | str (s : String)
  | num (q : ℚ)
  | missing
deriving DecidableEq

/-- Sign handling of a numeric literal: an optional leading '-' or '+'.
Returns whether the number is negated, with the remaining characters. -/
def parseSign : List Char → Bool × List Char
  | '-' :: r => (true, r)
  | '+' :: r => (false, r)
  | r => (false, r)

/-- Value of a digit character. -/
def digitVal (c : Char) : Nat := c.toNat - 48

/-- Value of a digit string read left to right. -/
def digitsVal (cs : List Char) : Nat := cs.foldl (fun a c => 10 * a + digitVal c) 0

/-- Apply an optional leading minus sign to a natural numerator. -/
def applySign (neg : Bool) (n : Nat) : Int :=
  if neg then -(n : Int) else (n : Int)

/-- Model of the numeric parsing done by pd.to_numeric(errors='coerce') on a
single textual cell, restricted to the literal forms relevant to this data:
optional surrounding spaces, an optional sign, and decimal digits with an
optional fractional part.  Returns none where the parse fails (= coerce to
NaN). -/
def parseDec (s : String) : Option ℚ :=
  let cs := (s.toList.dropWhile (· = ' ')).reverse.dropWhile (· = ' ') |>.reverse
  let sb := parseSign cs
  let intPart := sb.2.takeWhile (fun c => c.isDigit)
  let rest := sb.2.drop intPart.length
  match rest with
  | [] =>
    if intPart.isEmpty then none
    else some (mkRat (applySign sb.1 (digitsVal intPart)) 1)
  | '.' :: frac =>
    if frac.all (fun c => c.isDigit) && !(intPart.isEmpty && frac.isEmpty) then
      some (mkRat (applySign sb.1 (digitsVal (intPart ++ frac))) (10 ^ frac.length))
    else none
  | _ => none

/-- The frequency_mapping dict of src/data_preparation.py lines 52-72,
key for key. -/
def frequency_mapping : List (String × Nat) :=
  [ ( "daily", 6), ( "Daily", 6), ( "DAILY", 6),
    ( "4-6x", 5), ( "4-6X", 5),
    ( "2-3x", 4), ( "2-3X", 4),
    ( "1x", 3), ( "1X", 3),
    ( "occ", 2), ( "Occ", 2), ( "OCC", 2),
    ( "occasionally", 2), ( "Occasionally", 2),
    ( "0x", 1), ( "0X", 1),
    ( "never", 1), ( "Never", 1), ( "NEVER", 1) ]

/-- Dict lookup: the code a textual response maps to, if its exact text is a
key of frequency_mapping. -/
def freqLookup (s : String) : Option Nat :=
  (frequency_mapping.find? (fun p => p.1 == s)).map (fun p => p.2)

/-- Per-cell semantics of data[col].map(frequency_mapping) (line 106): dict
keys are strings, so only textual cells whose exact text is a key map to a
code; every other cell maps to NaN. -/
def mapFreq : Cell → Option ℚ
  | Cell.str s => (freqLookup s).map (fun k => (k : ℚ))
  | _ => none

/-- Per-cell semantics of pd.to_numeric(data[col], errors='coerce')
(line 112): numbers pass through, numeric text parses, everything else
coerces to NaN. -/
def toNumeric : Cell → Option ℚ
  | Cell.str s => parseDec s
  | Cell.num q => some q
  | Cell.missing => none

/-- Per-cell result of the frequency coder: the dict mapping, with the
numeric pass-through as fallback, and missing when both fail. -/
def codeCell (c : Cell) : Option ℚ :=
  match mapFreq c with
  | some v => some v
  | none => toNumeric c

/-- The column-level frequency coding of lines 101-116: map the dict over
the column; if any resulting cell is NaN, fill the NaN cells from
pd.to_numeric of the raw column. -/
def codeColumn (col : List Cell) : List (Option ℚ) :=
  let mapped := col.map mapFreq
  if mapped.any (fun v => v.isNone) then
    (List.zip mapped col).map (fun p =>
      match p.1 with
      | some v => some v
      | none => toNumeric p.2)
  else mapped

/-- A Python float as it feeds categorize_bmi: NaN, an infinity, or a finite
value (modelled by a rational). -/
inductive PyFloat where
  | nan
  | inf
  | ninf
  | fin (q : ℚ)
deriving DecidableEq

/-- IEEE less-than of a float against a finite constant: NaN compares false,
-inf is below everything finite, +inf above. -/
def fLt (x : PyFloat) (c : ℚ) : Bool :=
  match x with
  | PyFloat.nan => false
  | PyFloat.inf => false
  | PyFloat.ninf => true
  | PyFloat.fin q => decide (q < c)

/-- categorize_bmi of src/data_preparation.py lines 132-142.  The none case
models a missing argument (pd.isna(None) is true); PyFloat.nan models a NaN
argument (pd.isna(nan) is true); otherwise the cascaded bmi < 18.5 / 25 / 30
comparisons run. -/
def categorize_bmi (bmi : Option PyFloat) : String :=
  match bmi with
  | none => "Unknown"
  | some PyFloat.nan => "Unknown"
  | some v =>
    if fLt v (mkRat 37 2) then "Underweight"
    else if fLt v 25 then "Normal"
    else if fLt v 30 then "Overweight"
    else "Obese"

/-- BMI_final (line 128): pd.to_numeric(data['BMI'], errors='coerce') turns
an unparseable or missing cell into NaN. -/
def bmiFinal (c : Cell) : PyFloat :=
  match toNumeric c with
  | some q => PyFloat.fin q
  | none => PyFloat.nan

/-- The food_groups dict of src/data_preparation.py lines 75-93, group for
group and item for item (dicts preserve insertion order). -/
def food_groups : List (String × List String) :=
  [ ( "Dairy", [ "Milk ", "Yoghurt", "Ice cream", "Dairy_Other"]),
    ( "Tubers", [ "Yam", "Cocoyam", "Water yam", "Sweet Potatoe",
                  "Irish Potatoes (Daily/1wk/2-3x/4-6x/Occasional/Never)", "Tubers_Other"]),
    ( "Legumes", [ "Beans", "Pigeon pea", "Bambara nut", "Soybean products",
                   "Breadfruit (Daily/1wk/2-3x/4-6x/Occasional/Never)",
                   "Groundnut", "African yam bean", "Legumes_Other"]),
    ( "Cereals", [ "Rice", "Maize", "Millet", "Guinea corn", "Wheat", "Oats", "Cereals_Other"]),
    ( "Meats", [ "Beef", "Goat meat", "Chicken", "Turkey", "Egg", "Fish", "Pork meat",
                 "Snail", "Kpomo"]),
    ( "Vegetables", [ "Tomatoes", "Ugu", "Scent leaf", "Water leaf", "Green", "Bitter leaf ",
                      "Carrot", "Cabbage", "Cucumber", "Garden", "Okro", "Pumpkin", "Veg_Other"]),
    ( "Fruits", [ "Apple", "Orange", "Grapes", "Banana", "Soursop", "Avocado", "African pear",
                  "Forest pear", "Watermelon", "Pineapple", "Agbalumo", "Pawpaw", "Mango",
                  "Guava", "Cashew", "Fruit_Other"]),
    ( "Spices", [ "Garlic ", "Rosemary", "Thyme", "Turmeric", "Nutmeg", "Okpei", "Ogiri",
                  "Spice_Other"]),
    ( "Drinks", [ "Water", "Soft drinks", "Alcoholic beverages", "Wines", "Palm wine", "Beer",
                  "Drink_Other"]),
    ( "Snacks", [ "Biscuits ", "Chin-chin", "Buns", "Doughnut", "Peanut", "Plantain",
                  "Chocolate", "Eggrolls", "Snack_Other"]) ]

/-- The food_groups dict of src/advanced_analysis.py lines 153-169 (cluster
analysis), key for key: it has no Spices and no Drinks entry. -/
def food_groups_advanced : List (String × List String) :=
  [ ( "Dairy", [ "Milk ", "Yoghurt", "Ice cream", "Dairy_Other"]),
    ( "Tubers", [ "Yam", "Cocoyam", "Water yam", "Sweet Potatoe",
                  "Irish Potatoes (Daily/1wk/2-3x/4-6x/Occasional/Never)", "Tubers_Other"]),
    ( "Legumes", [ "Beans", "Pigeon pea", "Bambara nut", "Soybean products",
                   "Breadfruit (Daily/1wk/2-3x/4-6x/Occasional/Never)",
                   "Groundnut", "African yam bean", "Legumes_Other"]),
    ( "Cereals", [ "Rice", "Maize", "Millet", "Guinea corn", "Wheat", "Oats", "Cereals_Other"]),
    ( "Meats", [ "Beef", "Goat meat", "Chicken", "Turkey", "Egg", "Fish", "Pork meat",
                 "Snail", "Kpomo"]),
    ( "Vegetables", [ "Tomatoes", "Ugu", "Scent leaf", "Water leaf", "Green", "Bitter leaf ",
                      "Carrot", "Cabbage", "Cucumber", "Garden", "Okro", "Pumpkin", "Veg_Other"]),
    ( "Fruits", [ "Apple", "Orange", "Grapes", "Banana", "Soursop", "Avocado", "African pear",
                  "Forest pear", "Watermelon", "Pineapple", "Agbalumo", "Pawpaw", "Mango",
                  "Guava", "Cashew", "Fruit_Other"]),
    ( "Snacks", [ "Biscuits ", "Chin-chin", "Buns", "Doughnut", "Peanut", "Plantain",
                  "Chocolate", "Eggrolls", "Snack_Other"]) ]

/-- The food_groups dict of src/analysis_dietary_patterns.py lines 36-54,
key for key. -/
def food_groups_patterns : List (String × List String) :=
  [ ( "Dairy", [ "Milk ", "Yoghurt", "Ice cream", "Dairy_Other"]),
    ( "Tubers", [ "Yam", "Cocoyam", "Water yam", "Sweet Potatoe",
                  "Irish Potatoes (Daily/1wk/2-3x/4-6x/Occasional/Never)", "Tubers_Other"]),
    ( "Legumes", [ "Beans", "Pigeon pea", "Bambara nut", "Soybean products",
                   "Breadfruit (Daily/1wk/2-3x/4-6x/Occasional/Never)",
                   "Groundnut", "African yam bean", "Legumes_Other"]),
    ( "Cereals", [ "Rice", "Maize", "Millet", "Guinea corn", "Wheat", "Oats", "Cereals_Other"]),
    ( "Meats", [ "Beef", "Goat meat", "Chicken", "Turkey", "Egg", "Fish", "Pork meat",
                 "Snail", "Kpomo"]),
    ( "Vegetables", [ "Tomatoes", "Ugu", "Scent leaf", "Water leaf", "Green", "Bitter leaf ",
                      "Carrot", "Cabbage", "Cucumber", "Garden", "Okro", "Pumpkin", "Veg_Other"]),
    ( "Fruits", [ "Apple", "Orange", "Grapes", "Banana", "Soursop", "Avocado", "African pear",
                  "Forest pear", "Watermelon", "Pineapple", "Agbalumo", "Pawpaw", "Mango",
                  "Guava", "Cashew", "Fruit_Other"]),
    ( "Spices", [ "Garlic ", "Rosemary", "Thyme", "Turmeric", "Nutmeg", "Okpei", "Ogiri",
                  "Spice_Other"]),
    ( "Drinks", [ "Water", "Soft drinks", "Alcoholic beverages", "Wines", "Palm wine", "Beer",
                  "Drink_Other"]),
    ( "Snacks", [ "Biscuits ", "Chin-chin", "Buns", "Doughnut", "Peanut", "Plantain",
                  "Chocolate", "Eggrolls", "Snack_Other"]) ]

/-- A participant row as calculate_dds sees it: a lookup from column name to
none (column absent from row.index), some none (column present, value NaN),
or some (some q) (column present with value q). -/
abbrev Row : Type := String → Option (Option ℚ)

/-- The inner test of calculate_dds (lines 165-169): the item's coded column
is present in the row and its value is not NaN and is >= 3. -/
def itemConsumed (row : Row) (item : String) : Bool :=
  match row (item ++ "_coded") with
  | some (some q) => decide (3 ≤ q)
  | _ => false

/-- The per-group loop of calculate_dds (lines 163-169): group_consumed is
true when any member item clears the test (the break makes further items
irrelevant, which List.any mirrors). -/
def groupConsumed (row : Row) (items : List String) : Bool :=
  items.any (fun item => itemConsumed row item)

/-- calculate_dds of src/data_preparation.py lines 159-172: one point per
food group whose group_consumed flag is set. -/
def calculate_dds (row : Row) (fg : List (String × List String)) : Nat :=
  fg.countP (fun g => groupConsumed row g.2)

/-- The row of end-to-end scenario 3: Rice was coded 6 (Daily) and every
other coded column is absent/missing. -/
def riceRow : Row :=
  fun col => if col = "Rice_coded" then some (some 6) else some none

/-- A row in which every coded column is absent. -/
def emptyRow : Row := fun _ => none

/-!  Text normalizer (src/data_preparation.py lines 38-44).  Strings are
modelled as lists of code points so that the case-mapping arithmetic of
str.title is explicit; the model covers the ASCII letters the survey's
textual answers use. -/

/-- Python strings as lists of code points. -/
abbrev PyStr : Type := List Nat

/-- Whitespace as str.strip removes it (space, tab, LF, VT, FF, CR). -/
def isSpaceCP (c : Nat) : Bool := c = 32 || c = 9 || c = 10 || c = 11 || c = 12 || c = 13

/-- ASCII lowercase letter. -/
def isLowerCP (c : Nat) : Bool := 97 ≤ c && c ≤ 122

/-- ASCII uppercase letter. -/
def isUpperCP (c : Nat) : Bool := 65 ≤ c && c ≤ 90

/-- A cased character (a letter, in the ASCII model). -/
def isCasedCP (c : Nat) : Bool := isLowerCP c || isUpperCP c

/-- Uppercase a code point. -/
def toUpperCP (c : Nat) : Nat := if isLowerCP c then c - 32 else c

/-- Lowercase a code point. -/
def toLowerCP (c : Nat) : Nat := if isUpperCP c then c + 32 else c

/-- str.strip: drop whitespace from both ends. -/
def pyStrip (s : PyStr) : PyStr :=
  ((s.dropWhile isSpaceCP).reverse.dropWhile isSpaceCP).reverse

/-- The character transform of str.title: a cased character is uppercased
when the previous character was uncased (prevCased = false) and lowercased
otherwise; uncased characters pass through. -/
def caseTransform (prevCased : Bool) (c : Nat) : Nat :=
  if isCasedCP c then (if prevCased then toLowerCP c else toUpperCP c) else c

/-- str.title, one character at a time, tracking whether the previous
character was cased. -/
def titleAux : Bool → PyStr → PyStr
  | _, [] => []
  | prevCased, c :: cs => caseTransform prevCased c :: titleAux (isCasedCP c) cs

/-- str.title of a whole string (no predecessor before the first character). -/
def pyTitle (s : PyStr) : PyStr := titleAux false s

/-- The string "nan", which str() produces from a missing value. -/
def strNAN : PyStr := [110, 97, 110]

/-- The string "Nan", which line 43 replaces back to a true missing value. -/
def strNan : PyStr := [78, 97, 110]

/-- Lines 41-43 applied to one cell of a listed textual column: astype(str)
turns a missing value into the text "nan"; then strip and title run; then
the exact text "Nan" is replaced by a true missing value. -/
def normalizeCell (v : Option PyStr) : Option PyStr :=
  let s := match v with | none => strNAN | some s => s
  let t := pyTitle (pyStrip s)
  if t = strNan then none else some t

/-!  Control flow of the whole preparation run (src/data_preparation.py),
as far as it depends on which columns the input has.  Steps 1.5 (text), 2
(coding) and the if-guarded summary fields only touch columns behind
membership tests; data['BMI'] at line 128 raises KeyError('BMI') before the
export at line 186; data['Residence'] at line 192 raises
KeyError('Residence') after it. -/

/-- Outcome of a preparation run: whether cleaned_data.csv was written, and
the column named by the KeyError that aborted the run, if any. -/
structure PrepOutcome where
  exported : Bool
  keyError : Option String
deriving DecidableEq

/-- The column-presence-dependent control flow of the script.  cols is the
set of columns of the loaded table.  Text standardization (lines 38-44) and
frequency coding (lines 102-116) guard every access with `col in
data.columns` and so never abort; line 128 reads data['BMI'] unguarded;
lines 144-177 only use columns created by the script; line 186 writes the
export; line 192 reads data['Residence'] unguarded. -/
def runPrep (cols : List String) : PrepOutcome :=
  if "BMI" ∈ cols then
    if "Residence" ∈ cols then { exported := true, keyError := none }
    else { exported := true, keyError := some "Residence" }
  else { exported := false, keyError := some "BMI" }

/-!  Helper lemmas. -/

/-- A permutation does not change whether some element satisfies p. -/
lemma any_of_perm {α : Type} (p : α → Bool) {l1 l2 : List α} (h : l1.Perm l2) :
    l1.any p = l2.any p := by
  apply Bool.coe_iff_coe.mp
  simp only [List.any_eq_true]
  constructor
  · rintro ⟨x, hx, hpx⟩
    exact ⟨x, h.mem_iff.mp hx, hpx⟩
  · rintro ⟨x, hx, hpx⟩
    exact ⟨x, h.mem_iff.mpr hx, hpx⟩

/-- If the dict hits a textual cell, the coded cell is the dict's code. -/
lemma codeCell_of_mapFreq {c : Cell} {v : ℚ} (h : mapFreq c = some v) :
    codeCell c = some v := by
  unfold codeCell
  rw [h]

/-- If the dict misses, the coded cell is the numeric pass-through. -/
lemma codeCell_of_mapFreq_none {c : Cell} (h : mapFreq c = none) :
    codeCell c = toNumeric c := by
  unfold codeCell
  rw [h]

/-- Every code in the frequency dict is one of 1..6. -/
lemma freqLookup_mem {s : String} {k : Nat} (h : freqLookup s = some k) :
    (k : ℚ) ∈ ([ 1, 2, 3, 4, 5, 6] : List ℚ) := by
  unfold freqLookup at h
  cases hf : frequency_mapping.find? (fun p => p.1 == s) with
  | none => simp [hf] at h
  | some p =>
    simp only [hf] at h
    have hk : p.2 = k := by simpa using h
    have hmem : p ∈ frequency_mapping := List.mem_of_find?_eq_some hf
    have hall : ∀ p ∈ frequency_mapping, ((p.2 : ℚ)) ∈ ([ 1, 2, 3, 4, 5, 6] : List ℚ) := by
      decide
    rw [← hk]
    exact hall p hmem

/-- The zipped fillna pass computes codeCell pointwise. -/
lemma zip_fillna_eq (col : List Cell) :
    (List.zip (col.map mapFreq) col).map (fun p =>
        match p.1 with
        | some v => some v
        | none => toNumeric p.2) = col.map codeCell := by
  induction col with
  | nil => rfl
  | cons c cs ih =>
    simp only [List.map_cons, List.zip_cons_cons, ih]
    rfl

/-- Claim C6: the frequency coder is total per cell: the column-level code
(dict map, then fillna with the numeric pass-through, guarded by an
any-isna test) equals the per-cell function codeCell on every cell, and a
cell on which both the dict and the numeric interpretation fail codes to
missing — codeCell and codeColumn are total functions, so no input raises. -/
theorem freq_coder_total :
    (∀ col : List Cell, codeColumn col = col.map codeCell)
    ∧ (∀ c : Cell, mapFreq c = none → toNumeric c = none → codeCell c = none)
    ∧ codeCell Cell.missing = none := by
  refine ⟨?_, ?_, rfl⟩
  · intro col
    unfold codeColumn
    by_cases h : (col.map mapFreq).any (fun v => v.isNone) = true
    · simp only [h, if_true]
      exact zip_fillna_eq col
    · simp only [h]
      simp only [Bool.not_eq_true] at h
      rw [List.any_eq_false] at h
      apply List.map_congr_left
      intro c hc
      have := h (mapFreq c) (List.mem_map_of_mem mapFreq hc)
      cases hm : mapFreq c with
      | none => rw [hm] at this; simp at this
      | some v => exact (codeCell_of_mapFreq hm).symm
  · intro c h1 h2
    rw [codeCell_of_mapFreq_none h1, h2]

/-- Witness for C6 at a cell that neither the dict nor the numeric parse
accepts. -/
theorem freq_coder_total_witness :
    mapFreq (Cell.str ("xyz")) = none ∧ toNumeric (Cell.str ("xyz")) = none
    ∧ codeCell (Cell.str ("xyz")) = none :=
  ⟨by decide, by decide, freq_coder_total.2.1 (Cell.str ("xyz")) (by decide) (by decide)⟩

/-- Claim C10: a cell missed by the synonym dict but interpretable as a
number codes to exactly that parsed number: numeric strings pass through
via parseDec and already-numeric cells pass through unchanged. -/
theorem numeric_passthrough :
    (∀ (s : String) (q : ℚ), freqLookup s = none → parseDec s = some q →
      codeCell (Cell.str s) = some q)
    ∧ (∀ q : ℚ, codeCell (Cell.num q) = some q) := by
  constructor
  · intro s q h1 h2
    have hm : mapFreq (Cell.str s) = none := by
      simp [mapFreq, h1]
    rw [codeCell_of_mapFreq_none hm]
    exact h2
  · intro q
    rfl

/-- Witness for C10 at the numeric string "3". -/
theorem numeric_passthrough_witness :
    freqLookup ("3") = none ∧ parseDec ("3") = some 3
    ∧ codeCell (Cell.str ("3")) = some 3 :=
  ⟨by decide, by decide, numeric_passthrough.1 ("3") 3 (by decide) (by decide)⟩

/-- Claim C1: against the fixed catalog, calculate_dds counts exactly the
food groups in which some member item's coded value is present and >= 3 (one
point per group however many items clear the threshold); the score is at
most the number of groups (= 10); a group all of whose member coded columns
are absent or NaN contributes nothing (and, codeCell being total, nothing
errors); and in the scenario where only Rice is coded 6 the score is 1. -/
theorem calculate_dds_spec :
    (∀ row : Row, calculate_dds row food_groups ≤ food_groups.length)
    ∧ (∀ row : Row, calculate_dds row food_groups
        = (food_groups.filter (fun g => groupConsumed row g.2)).length)
    ∧ (∀ (row : Row) (item : String), itemConsumed row item = true
        ↔ ∃ q : ℚ, row (item ++ "_coded") = some (some q) ∧ 3 ≤ q)
    ∧ (∀ (row : Row) (items : List String),
        (∀ item ∈ items, row (item ++ "_coded") = some none ∨ row (item ++ "_coded") = none) →
        groupConsumed row items = false)
    ∧ food_groups.length = 10
    ∧ calculate_dds riceRow food_groups = 1 := by
  refine ⟨?_, ?_, ?_, ?_, by decide, by decide⟩
  · intro row
    exact List.countP_le_length (fun g : String × List String => groupConsumed row g.2)
  · intro row
    exact List.countP_eq_length_filter
      (fun g : String × List String => groupConsumed row g.2) food_groups
  · intro row item
    unfold itemConsumed
    cases h : row (item ++ "_coded") with
    | none => simp [h]
    | some o =>
      cases o with
      | none => simp [h]
      | some q => simp [h]
  · intro row items h
    unfold groupConsumed
    rw [List.any_eq_false]
    intro item hitem
    unfold itemConsumed
    rcases h item hitem with h' | h' <;> simp [h']

/-- Witness for C1 at a group whose single member item's coded column is
absent from the row. -/
theorem calculate_dds_spec_witness :
    (∀ item ∈ [( "Rice")], emptyRow (item ++ "_coded") = some none
      ∨ emptyRow (item ++ "_coded") = none)
    ∧ groupConsumed emptyRow [( "Rice")] = false :=
  ⟨by decide, calculate_dds_spec.2.2.2.1 emptyRow [( "Rice")] (by decide)⟩

/-- Claim C2: categorize_bmi is total with values in the five categories;
missing and NaN map to Unknown, and so does every cell the BMI_final
coercion fails on; on finite numbers the thresholds are half-open and
lower-bound inclusive; the four boundary probes of the spec and the two
infinities behave as documented. -/
theorem categorize_bmi_spec :
    (∀ b : Option PyFloat,
      categorize_bmi b = "Underweight" ∨ categorize_bmi b = "Normal"
      ∨ categorize_bmi b = "Overweight" ∨ categorize_bmi b = "Obese"
      ∨ categorize_bmi b = "Unknown")
    ∧ categorize_bmi none = "Unknown"
    ∧ categorize_bmi (some PyFloat.nan) = "Unknown"
    ∧ (∀ c : Cell, toNumeric c = none → categorize_bmi (some (bmiFinal c)) = "Unknown")
    ∧ (∀ q : ℚ,
        (categorize_bmi (some (PyFloat.fin q)) = "Underweight" ↔ q < mkRat 37 2)
        ∧ (categorize_bmi (some (PyFloat.fin q)) = "Normal" ↔ mkRat 37 2 ≤ q ∧ q < 25)
        ∧ (categorize_bmi (some (PyFloat.fin q)) = "Overweight" ↔ 25 ≤ q ∧ q < 30)
        ∧ (categorize_bmi (some (PyFloat.fin q)) = "Obese" ↔ 30 ≤ q))
    ∧ categorize_bmi (some (PyFloat.fin (mkRat 37 2))) = "Normal"
    ∧ categorize_bmi (some (PyFloat.fin (mkRat 1849999 100000))) = "Underweight"
    ∧ categorize_bmi (some (PyFloat.fin (mkRat 299999 10000))) = "Overweight"
    ∧ categorize_bmi (some (PyFloat.fin 30)) = "Obese"
    ∧ categorize_bmi (some PyFloat.inf) = "Obese"
    ∧ categorize_bmi (some PyFloat.ninf) = "Underweight" := by
  refine ⟨?_, rfl, rfl, ?_, ?_, by decide, by decide, by decide, by decide, by decide, by decide⟩
  · intro b
    match b with
    | none => tauto
    | some PyFloat.nan => tauto
    | some PyFloat.inf => simp [categorize_bmi]; tauto
    | some PyFloat.ninf => simp [categorize_bmi]; tauto
    | some (PyFloat.fin q) =>
      simp only [categorize_bmi]
      split_ifs <;> tauto
  · intro c h
    simp [bmiFinal, h, categorize_bmi]
  · intro q
    have hA : mkRat 37 2 < 25 := by decide
    have hB : (25 : ℚ) < 30 := by decide
    have hcat : categorize_bmi (some (PyFloat.fin q)) =
        (if q < mkRat 37 2 then "Underweight"
         else if q < 25 then "Normal"
         else if q < 30 then "Overweight"
         else "Obese") := by
      simp [categorize_bmi, fLt]
    rw [hcat]
    split_ifs with h1 h2 h3
    · exact ⟨iff_of_true rfl h1,
        iff_of_false (by decide) (fun h => by linarith [h.1]),
        iff_of_false (by decide) (fun h => by linarith [h.1]),
        iff_of_false (by decide) (fun h => by linarith)⟩
    · exact ⟨iff_of_false (by decide) h1,
        iff_of_true rfl ⟨le_of_not_lt h1, h2⟩,
        iff_of_false (by decide) (fun h => by linarith [h.1]),
        iff_of_false (by decide) (fun h => by linarith)⟩
    · exact ⟨iff_of_false (by decide) h1,
        iff_of_false (by decide) (fun h => h2 h.2),
        iff_of_true rfl ⟨le_of_not_lt h2, h3⟩,
        iff_of_false (by decide) (fun h => by linarith)⟩
    · exact ⟨iff_of_false (by decide) h1,
        iff_of_false (by decide) (fun h => h2 h.2),
        iff_of_false (by decide) (fun h => h3 h.2),
        iff_of_true rfl (le_of_not_lt h3)⟩

/-- Witness for C2 at a textual BMI cell the numeric coercion rejects. -/
theorem categorize_bmi_spec_witness :
    toNumeric (Cell.str ("abc")) = none
    ∧ categorize_bmi (some (bmiFinal (Cell.str ("abc")))) = "Unknown" :=
  ⟨by decide, categorize_bmi_spec.2.2.2.1 (Cell.str ("abc")) (by decide)⟩

/-- Counterexample to claim C3: the raw textual cell "42" is missed by the
synonym dict, parses as a number, and so receives the coded value 42 — a
value outside {1,...,6}. -/
theorem coded_range_counterexample :
    codeCell (Cell.str ("42")) = some 42
    ∧ (42 : ℚ) ∉ ([ 1, 2, 3, 4, 5, 6] : List ℚ) := by
  constructor
  · decide
  · decide

/-- Claim C3 as amended: every coded value is either one of the ordinal
codes 1..6 (whenever the synonym dict produced it) or the numeric
pass-through of the raw cell, which is not range-checked. -/
theorem coded_range_amended :
    ∀ (c : Cell) (q : ℚ), codeCell c = some q →
      q ∈ ([ 1, 2, 3, 4, 5, 6] : List ℚ) ∨ toNumeric c = some q := by
  intro c q h
  cases c with
  | str s =>
    cases hf : freqLookup s with
    | none =>
      right
      have hm : mapFreq (Cell.str s) = none := by simp [mapFreq, hf]
      rw [codeCell_of_mapFreq_none hm] at h
      exact h
    | some k =>
      left
      have hm : mapFreq (Cell.str s) = some (k : ℚ) := by simp [mapFreq, hf]
      rw [codeCell_of_mapFreq hm] at h
      rw [← Option.some_inj.mp h]
      exact freqLookup_mem hf
  | num q' =>
    right
    exact h
  | missing =>
    simp [codeCell, mapFreq, toNumeric] at h

/-- Witness for the amended C3 at the out-of-range pass-through cell "42". -/
theorem coded_range_amended_witness :
    codeCell (Cell.str ("42")) = some 42
    ∧ ((42 : ℚ) ∈ ([ 1, 2, 3, 4, 5, 6] : List ℚ)
        ∨ toNumeric (Cell.str ("42")) = some 42) :=
  ⟨by decide, coded_range_amended (Cell.str ("42")) 42 (by decide)⟩

/-- Counterexample to claim C4: the preparation catalog and the catalog
redefined in src/advanced_analysis.py are not identical — the latter has no
Spices and no Drinks group. -/
theorem catalog_counterexample : food_groups ≠ food_groups_advanced := by decide

/-- Claim C4 as amended: the catalog of src/analysis_dietary_patterns.py is
identical to the preparation catalog, group for group and item for item;
src/advanced_analysis.py instead redefines exactly the preparation catalog
with its Spices and Drinks groups removed (its remaining eight groups agree
group for group and item for item). -/
theorem catalog_amended :
    food_groups = food_groups_patterns
    ∧ food_groups_advanced
        = food_groups.filter (fun g => !(g.1 == "Spices" || g.1 == "Drinks")) := by
  constructor
  · decide
  · decide

/-- Counterexample to claim C5: matching is not case-insensitive — the dict
maps the casing "Occasionally" to 2 but codes the casing "OCCASIONALLY" of
the same synonym to missing. -/
theorem freq_case_counterexample :
    codeCell (Cell.str ("Occasionally")) = some 2
    ∧ codeCell (Cell.str ("OCCASIONALLY")) = none := by
  constructor
  · decide
  · decide

/-- Claim C5 as amended: matching covers exactly the finite list of casings
enumerated in frequency_mapping — the lower/Title/UPPER casings of the word
synonyms and the lower/upper casings of the x-abbreviations — each coding
per the fixed mapping (in particular "2-3X" codes to 4); a casing outside
that list, such as "OCCASIONALLY", codes to missing. -/
theorem freq_case_amended :
    codeCell (Cell.str ("daily")) = some 6 ∧ codeCell (Cell.str ("Daily")) = some 6
    ∧ codeCell (Cell.str ("DAILY")) = some 6
    ∧ codeCell (Cell.str ("4-6x")) = some 5 ∧ codeCell (Cell.str ("4-6X")) = some 5
    ∧ codeCell (Cell.str ("2-3x")) = some 4 ∧ codeCell (Cell.str ("2-3X")) = some 4
    ∧ codeCell (Cell.str ("1x")) = some 3 ∧ codeCell (Cell.str ("1X")) = some 3
    ∧ codeCell (Cell.str ("occ")) = some 2 ∧ codeCell (Cell.str ("Occ")) = some 2
    ∧ codeCell (Cell.str ("OCC")) = some 2
    ∧ codeCell (Cell.str ("occasionally")) = some 2
    ∧ codeCell (Cell.str ("Occasionally")) = some 2
    ∧ codeCell (Cell.str ("0x")) = some 1 ∧ codeCell (Cell.str ("0X")) = some 1
    ∧ codeCell (Cell.str ("never")) = some 1 ∧ codeCell (Cell.str ("Never")) = some 1
    ∧ codeCell (Cell.str ("NEVER")) = some 1
    ∧ codeCell (Cell.str ("OCCASIONALLY")) = none := by
  repeat constructor

/-- Counterexample to claim C7: with Residence absent (and only the BMI
core column present) the run does abort with a KeyError naming Residence,
but the cleaned export has already been written when it happens; and with
BMI and Residence present but every food-item column absent, the run does
not abort at all. -/
theorem prep_abort_counterexample :
    runPrep [ "BMI"] = { exported := true, keyError := some "Residence" }
    ∧ runPrep [ "BMI", "Residence"] = { exported := true, keyError := none } := by
  constructor
  · decide
  · decide

/-- Claim C7 as amended: an absent BMI column aborts the run with a
KeyError naming BMI before any export; absent food-item columns are
silently skipped and never abort; an absent Residence column aborts the run
with a KeyError naming Residence, but only after the cleaned snapshot has
been exported. -/
theorem prep_abort_amended :
    (∀ cols : List String, "BMI" ∉ cols →
      runPrep cols = { exported := false, keyError := some "BMI" })
    ∧ (∀ cols : List String, "BMI" ∈ cols → "Residence" ∉ cols →
      runPrep cols = { exported := true, keyError := some "Residence" })
    ∧ (∀ cols : List String, "BMI" ∈ cols → "Residence" ∈ cols →
      runPrep cols = { exported := true, keyError := none }) := by
  refine ⟨?_, ?_, ?_⟩ <;> intro cols <;> intro h1 <;> try intro h2
  · simp [runPrep, h1]
  · simp [runPrep, h1, h2]
  · simp [runPrep, h1, h2]

/-- Witness for the amended C7 at a table having neither core column. -/
theorem prep_abort_amended_witness :
    ("BMI" ∉ ([ "Age"] : List String))
    ∧ runPrep [ "Age"] = { exported := false, keyError := some "BMI" } :=
  ⟨by decide, prep_abort_amended.1 [ "Age"] (by decide)⟩

/-- Claim C8: the DDS score is a pure function of the row and the catalog
(the embedding of calculate_dds is a function, so recomputation yields the
same integer and nothing is mutated), and it is order-independent:
permuting the groups of the catalog, or the items inside one group, leaves
the score unchanged. -/
theorem dds_order_independent :
    (∀ (row : Row) (fg1 fg2 : List (String × List String)), fg1.Perm fg2 →
      calculate_dds row fg1 = calculate_dds row fg2)
    ∧ (∀ (row : Row) (its1 its2 : List String), its1.Perm its2 →
      groupConsumed row its1 = groupConsumed row its2)
    ∧ (∀ (row : Row) (name : String) (its1 its2 : List String)
        (pre post : List (String × List String)), its1.Perm its2 →
      calculate_dds row (pre ++ (name, its1) :: post)
        = calculate_dds row (pre ++ (name, its2) :: post)) := by
  have hg : ∀ (row : Row) (its1 its2 : List String), its1.Perm its2 →
      groupConsumed row its1 = groupConsumed row its2 := by
    intro row its1 its2 h
    exact any_of_perm (fun item => itemConsumed row item) h
  refine ⟨?_, hg, ?_⟩
  · intro row fg1 fg2 h
    exact h.countP_eq (fun g => groupConsumed row g.2)
  · intro row name its1 its2 pre post h
    unfold calculate_dds
    rw [List.countP_append, List.countP_append, List.countP_cons, List.countP_cons]
    have : groupConsumed row its1 = groupConsumed row its2 := hg row its1 its2 h
    simp only [this]

/-- Witness for C8: reversing the ten-group catalog leaves the scenario-3
score unchanged. -/
theorem dds_order_independent_witness :
    food_groups.reverse.Perm food_groups
    ∧ calculate_dds riceRow food_groups.reverse = calculate_dds riceRow food_groups :=
  ⟨List.reverse_perm food_groups,
    dds_order_independent.1 riceRow food_groups.reverse food_groups
      (List.reverse_perm food_groups)⟩

/-!  Character-level lemmas for the text normalizer. -/

/-- Uppercasing is idempotent. -/
lemma toUpperCP_idem (c : Nat) : toUpperCP (toUpperCP c) = toUpperCP c := by
  simp only [toUpperCP, isLowerCP, Bool.and_eq_true, decide_eq_true_eq]
  split_ifs <;> omega

/-- Lowercasing is idempotent. -/
lemma toLowerCP_idem (c : Nat) : toLowerCP (toLowerCP c) = toLowerCP c := by
  simp only [toLowerCP, isUpperCP, Bool.and_eq_true, decide_eq_true_eq]
  split_ifs <;> omega

/-- Uppercasing preserves casedness. -/
lemma isCased_toUpper (c : Nat) : isCasedCP (toUpperCP c) = isCasedCP c := by
  apply Bool.coe_iff_coe.mp
  simp only [isCasedCP, isLowerCP, isUpperCP, toUpperCP, Bool.or_eq_true, Bool.and_eq_true,
    decide_eq_true_eq]
  split_ifs <;> omega

/-- Lowercasing preserves casedness. -/
lemma isCased_toLower (c : Nat) : isCasedCP (toLowerCP c) = isCasedCP c := by
  apply Bool.coe_iff_coe.mp
  simp only [isCasedCP, isLowerCP, isUpperCP, toLowerCP, Bool.or_eq_true, Bool.and_eq_true,
    decide_eq_true_eq]
  split_ifs <;> omega

/-- Uppercasing preserves whitespace-ness (letters are not whitespace). -/
lemma isSpace_toUpper (c : Nat) : isSpaceCP (toUpperCP c) = isSpaceCP c := by
  apply Bool.coe_iff_coe.mp
  simp only [isSpaceCP, toUpperCP, isLowerCP, Bool.or_eq_true, Bool.and_eq_true,
    decide_eq_true_eq]
  split_ifs <;> omega

/-- Lowercasing preserves whitespace-ness. -/
lemma isSpace_toLower (c : Nat) : isSpaceCP (toLowerCP c) = isSpaceCP c := by
  apply Bool.coe_iff_coe.mp
  simp only [isSpaceCP, toLowerCP, isUpperCP, Bool.or_eq_true, Bool.and_eq_true,
    decide_eq_true_eq]
  split_ifs <;> omega

/-- The title-case character transform is idempotent at a fixed flag. -/
lemma caseTransform_idem (b : Bool) (c : Nat) :
    caseTransform b (caseTransform b c) = caseTransform b c := by
  unfold caseTransform
  cases hc : isCasedCP c with
  | false => simp [hc]
  | true =>
    cases b with
    | false => simp [hc, isCased_toUpper, toUpperCP_idem]
    | true => simp [hc, isCased_toLower, toLowerCP_idem]

/-- The title-case character transform preserves casedness. -/
lemma isCased_caseTransform (b : Bool) (c : Nat) :
    isCasedCP (caseTransform b c) = isCasedCP c := by
  unfold caseTransform
  split_ifs with h1 h2
  · rw [isCased_toLower]
  · rw [isCased_toUpper]
  · rfl

/-- The title-case character transform preserves whitespace-ness. -/
lemma isSpace_caseTransform (b : Bool) (c : Nat) :
    isSpaceCP (caseTransform b c) = isSpaceCP c := by
  unfold caseTransform
  split_ifs with h1 h2
  · rw [isSpace_toLower]
  · rw [isSpace_toUpper]
  · rfl

/-- titleAux is idempotent at a fixed initial flag. -/
lemma titleAux_idem (s : PyStr) : ∀ b : Bool, titleAux b (titleAux b s) = titleAux b s := by
  induction s with
  | nil => intro b; rfl
  | cons c cs ih =>
    intro b
    simp only [titleAux]
    rw [caseTransform_idem, isCased_caseTransform, ih (isCasedCP c)]

/-- titleAux changes no character's whitespace-ness. -/
lemma titleAux_map_space (s : PyStr) :
    ∀ b : Bool, (titleAux b s).map isSpaceCP = s.map isSpaceCP := by
  induction s with
  | nil => intro b; rfl
  | cons c cs ih =>
    intro b
    simp only [titleAux, List.map_cons]
    rw [isSpace_caseTransform, ih (isCasedCP c)]

/-- str.title is idempotent. -/
lemma pyTitle_idem (s : PyStr) : pyTitle (pyTitle s) = pyTitle s := titleAux_idem s false

/-!  dropWhile / strip lemmas. -/

/-- dropWhile is idempotent. -/
lemma dropWhile_idem {α : Type} (p : α → Bool) (l : List α) :
    (l.dropWhile p).dropWhile p = l.dropWhile p := by
  induction l with
  | nil => rfl
  | cons c cs ih =>
    rw [List.dropWhile_cons]
    split_ifs with h
    · exact ih
    · rw [List.dropWhile_cons, if_neg h]

/-- A dropWhile-fixed nonempty list has a head that fails the predicate. -/
lemma head_false_of_dropWhile_self {α : Type} (p : α → Bool) {c : α} {cs : List α}
    (h : (c :: cs).dropWhile p = c :: cs) : p c = false := by
  by_contra hc
  rw [Bool.not_eq_false] at hc
  rw [List.dropWhile_cons, if_pos hc] at h
  have h1 : (cs.dropWhile p).length ≤ cs.length := (List.dropWhile_sublist p).length_le
  rw [h] at h1
  simp at h1

/-- A prefix of a dropWhile-fixed list is itself dropWhile-fixed. -/
lemma dropWhile_eq_self_of_prefix {α : Type} (p : α → Bool) {l l' : List α}
    (hpre : l' <+: l) (h : l.dropWhile p = l) : l'.dropWhile p = l' := by
  cases l' with
  | nil => rfl
  | cons c cs =>
    obtain ⟨r, hr⟩ := hpre
    have hfix : (c :: (cs ++ r)).dropWhile p = c :: (cs ++ r) := by
      rw [← List.cons_append, hr]
      exact h
    have hpc : p c = false := head_false_of_dropWhile_self p hfix
    rw [List.dropWhile_cons, if_neg (by simp [hpc])]

/-- dropWhile-fixedness depends only on the predicate's image: it transfers
along lists with the same map of the predicate. -/
lemma dropWhile_eq_self_of_map_eq (p : Nat → Bool) {l1 l2 : List Nat}
    (hm : l1.map p = l2.map p) (h : l1.dropWhile p = l1) : l2.dropWhile p = l2 := by
  cases l1 with
  | nil =>
    cases l2 with
    | nil => rfl
    | cons d ds => simp at hm
  | cons c cs =>
    cases l2 with
    | nil => rfl
    | cons d ds =>
      simp only [List.map_cons, List.cons.injEq] at hm
      have hpc : p c = false := head_false_of_dropWhile_self p h
      have hpd : p d = false := by rw [← hm.1]; exact hpc
      rw [List.dropWhile_cons, if_neg (by simp [hpd])]

/-- A stripped string has no leading whitespace. -/
lemma pyStrip_fix_left (s : PyStr) : (pyStrip s).dropWhile isSpaceCP = pyStrip s := by
  unfold pyStrip
  apply dropWhile_eq_self_of_prefix isSpaceCP ?_ (dropWhile_idem isSpaceCP s)
  have h1 : (s.dropWhile isSpaceCP).reverse.dropWhile isSpaceCP
      <:+ (s.dropWhile isSpaceCP).reverse := List.dropWhile_suffix isSpaceCP
  have h2 := List.reverse_prefix.mpr h1
  rwa [List.reverse_reverse] at h2

/-- A stripped string has no trailing whitespace. -/
lemma pyStrip_fix_right (s : PyStr) :
    (pyStrip s).reverse.dropWhile isSpaceCP = (pyStrip s).reverse := by
  unfold pyStrip
  rw [List.reverse_reverse]
  exact dropWhile_idem isSpaceCP (s.dropWhile isSpaceCP).reverse

/-- strip is the identity on a string with no surrounding whitespace. -/
lemma pyStrip_of_fix {l : PyStr} (h1 : l.dropWhile isSpaceCP = l)
    (h2 : l.reverse.dropWhile isSpaceCP = l.reverse) : pyStrip l = l := by
  unfold pyStrip
  rw [h1, h2, List.reverse_reverse]

/-- Title-casing a stripped string leaves it stripped. -/
lemma pyStrip_pyTitle (s : PyStr) :
    pyStrip (pyTitle (pyStrip s)) = pyTitle (pyStrip s) := by
  apply pyStrip_of_fix
  · refine dropWhile_eq_self_of_map_eq isSpaceCP ?_ (pyStrip_fix_left s)
    exact (titleAux_map_space (pyStrip s) false).symm
  · refine dropWhile_eq_self_of_map_eq isSpaceCP ?_ (pyStrip_fix_right s)
    simp only [List.map_reverse, pyTitle]
    rw [titleAux_map_space (pyStrip s) false]

/-- Claim C9: normalizing an already-normalized cell of a listed textual
column is a no-op (the normalization — strip, title-case, repair of the
stringified-NaN artifact — is idempotent, including on a true missing
value, which round-trips through the text "nan" back to missing); and any
cell whose stripped, title-cased text is exactly "Nan" becomes a true
missing value, not the literal text. -/
theorem text_normalize_idem :
    (∀ v : Option PyStr, normalizeCell (normalizeCell v) = normalizeCell v)
    ∧ (∀ s : PyStr, pyTitle (pyStrip s) = strNan → normalizeCell (some s) = none) := by
  have hnone : normalizeCell none = none := by decide
  constructor
  · intro v
    cases v with
    | none => rw [hnone, hnone]
    | some s =>
      by_cases h : pyTitle (pyStrip s) = strNan
      · have h1 : normalizeCell (some s) = none := by simp [normalizeCell, h]
        rw [h1, hnone]
      · have h1 : normalizeCell (some s) = some (pyTitle (pyStrip s)) := by
          simp [normalizeCell, h]
        rw [h1]
        simp [normalizeCell, pyStrip_pyTitle, pyTitle_idem, h]
  · intro s h
    simp [normalizeCell, h]

/-- Witness for C9 at the cell " nan", which strips and title-cases to
exactly "Nan" and is repaired to a true missing value. -/
theorem text_normalize_idem_witness :
    pyTitle (pyStrip ([ 32, 110, 97, 110] : PyStr)) = strNan
    ∧ normalizeCell (some ([ 32, 110, 97, 110] : PyStr)) = none :=
  ⟨by decide, text_normalize_idem.2 ([ 32, 110, 97, 110] : PyStr) (by decide)⟩

